import Mathlib

/-!
Shallow embedding of the core of the bmsmusicprofiles repository: dataset
normalization, pairwise similarity scoring, geometric layout and top-N link
selection, as implemented in the four App.js variants.

Modelling conventions:
* JS numbers appearing in scores/coordinates are modelled as `ℚ`; the code
  only performs field arithmetic on them.
* JS values in the loosely-typed raw dataset are modelled by `JAtom`/`JVal`/
  `JItem`/`JRaw` (primitives, flat arrays of primitives, objects, and the
  top-level dataset value).  Property access on `null`/`undefined` throws a
  TypeError in JS; that is modelled with `Except Unit`.
* `Math.cos`, `Math.sin`, `Math.pow(·, 0.62)`, `Math.PI` and the mulberry32
  pseudo-random stream operate on floats and have no exact rational value;
  they are abstracted as function/constant parameters of the layout
  definitions (`cosF`, `sinF`, `powF`, `piQ`, `rand`).  Every theorem below
  holds for all values of these parameters, or is instantiated at explicit
  ones.
* `String.prototype` operations (`toLowerCase`, `trim`, `split(",")`) are
  re-implemented over the character list of a Lean `String` so that they
  compute by kernel reduction; `localeCompare` is modelled as code-point
  order (only the fact that it is a total order is ever used).
-/

/-- JS primitive values occurring in the loosely-typed dataset. -/
inductive JAtom where
  | anull
  | aundef
  | abool (b : Bool)
  | anum (n : Int)
  | astr (s : String)
  deriving DecidableEq, Repr, Inhabited

/-- A JS value stored in a record field: a primitive or a flat array of
primitives (the shapes occurring in the data files). -/
inductive JVal where
  | atom (a : JAtom)
  | list (xs : List JAtom)
  deriving DecidableEq, Repr, Inhabited

/-- An element of the raw dataset array: a primitive (possibly `null` or
`undefined`) or an object given by its fields. -/
inductive JItem where
  | prim (a : JAtom)
  | obj (fields : List (String × JVal))
  deriving DecidableEq, Repr, Inhabited

/-- The raw value handed to `normalizeDataset`: an array, or any non-array
value (all non-arrays behave identically under `Array.isArray`). -/
inductive JRaw where
  | notArray
  | arr (xs : List JItem)
  deriving DecidableEq, Repr, Inhabited

/-- JS `String(atom)` for a primitive. -/
def jatomToString : JAtom → String
  | .anull => "null"
  | .aundef => "undefined"
  | .abool b => if b then "true" else "false"
  | .anum n => toString n
  | .astr s => s

/-- Element rendering used by `Array.prototype.toString`: `null` and
`undefined` render as the empty string inside an array join. -/
def jatomInArray : JAtom → String
  | .anull => ""
  | .aundef => ""
  | a => jatomToString a

/-- JS `String(v)`. -/
def jvalToString : JVal → String
  | .atom a => jatomToString a
  | .list xs => String.intercalate "," (xs.map jatomInArray)

/-- JS truthiness test (the values `null`, `undefined`, `false`, `0`, `""`
are falsy; arrays are always truthy). -/
def jvalFalsy : JVal → Bool
  | .atom .anull => true
  | .atom .aundef => true
  | .atom (.abool b) => !b
  | .atom (.anum n) => n == 0
  | .atom (.astr s) => s == ""
  | .list _ => false

/-- JS nullish coalescing `v ?? dflt`. -/
def jvalNN (v : JVal) (dflt : JVal) : JVal :=
  match v with
  | .atom .anull => dflt
  | .atom .aundef => dflt
  | _ => v

/-- JS property access `d[k]`: throws a TypeError on `null`/`undefined`,
yields `undefined` on other primitives and on objects lacking the field. -/
def jsGetField : JItem → String → Except Unit JVal
  | .prim .anull, _ => .error ()
  | .prim .aundef, _ => .error ()
  | .prim _, _ => .ok (.atom .aundef)
  | .obj fields, k => .ok ((fields.lookup k).getD (.atom .aundef))

/-- JS `String.prototype.toLowerCase`, over the character list. -/
def jsToLower (s : String) : String := String.mk (s.data.map Char.toLower)

/-- JS `String.prototype.trim`, over the character list. -/
def jsTrim (s : String) : String :=
  String.mk (((s.data.dropWhile Char.isWhitespace).reverse.dropWhile
    Char.isWhitespace).reverse)

/-- Split a character list at every comma; `[]` input yields one empty
group, matching JS `"".split(",") = [""]`. -/
def splitCommaChars : List Char → List (List Char)
  | [] => [[]]
  | c :: rest =>
    let r := splitCommaChars rest
    if c = ',' then [] :: r
    else
      match r with
      | [] => [[c]]
      | g :: gs => (c :: g) :: gs

/-- JS `s.split(",")`. -/
def jsSplitComma (s : String) : List String := (splitCommaChars s.data).map String.mk

/-- `toArrayLoose` as in `src/src/App.js` and both unnamed variants:
falsy input gives `[]`; an array is stringified element-wise; a scalar is
stringified, split on commas, trimmed, empty pieces dropped. -/
def toArrayLoose (v : JVal) : List String :=
  if jvalFalsy v then []
  else
    match v with
    | .list xs => xs.map jatomToString
    | .atom a => ((jsSplitComma (jatomToString a)).map jsTrim).filter (fun s => s != "")

/-- The first run of one or two digits in a character list, if any
(the regex `(\d{1,2})` of `yearToNumber`). -/
def firstDigitRun : List Char → Option (Char × Option Char)
  | [] => none
  | c :: rest =>
    if c.isDigit then
      match rest with
      | d :: _ => if d.isDigit then some (c, some d) else some (c, none)
      | [] => some (c, none)
    else firstDigitRun rest

/-- Numeric value of a decimal digit character. -/
def digitVal (c : Char) : Nat := c.toNat - 48

/-- `yearToNumber` as in `src/src/App.js`: stringify `y ?? ""`, extract the
first 1–2 digit run, absent run gives `null`. -/
def yearToNumber (v : JVal) : Option Nat :=
  match firstDigitRun ((jvalToString (jvalNN v (.atom (.astr "")))).data) with
  | none => none
  | some (c, none) => some (digitVal c)
  | some (c, some d) => some (digitVal c * 10 + digitVal d)

/-- Canonical entity produced by `normalizeDataset` in `src/src/App.js`
(and the identically-shaped variants): `id`, `name` and `collab` keep the
raw JS value the source stores without conversion. -/
structure Entity where
  id : JVal
  name : JVal
  year : Option Nat
  instruments : List String
  genres : List String
  artists : List String
  roles : List String
  geek : List String
  collab : JVal
  deriving DecidableEq, Repr, Inhabited

def kId : String := "id"
def kName : String := "name"
def kYear : String := "year"
def kInstruments : String := "instruments"
def kGenres : String := "genres"
def kArtists : String := "artists"
def kRoles : String := "roles"
def kGeek : String := "geek"
def kCollab : String := "collab"

/-- The `s-<index>` fallback id. -/
def sIdx (i : Nat) : String := "s-" ++ toString i

/-- The `Student <index+1>` fallback name. -/
def studentIdx (i : Nat) : String := "Student " ++ toString (i + 1)

/-- One step of `normalizeDataset`'s `.map((d, i) => ...)` in
`src/src/App.js`: every field access on `d` throws if `d` is
`null`/`undefined`. -/
def normalizeRecord (i : Nat) (d : JItem) : Except Unit Entity := do
  let idv ← jsGetField d kId
  let namev ← jsGetField d kName
  let yearv ← jsGetField d kYear
  let instrumentsv ← jsGetField d kInstruments
  let genresv ← jsGetField d kGenres
  let artistsv ← jsGetField d kArtists
  let rolesv ← jsGetField d kRoles
  let geekv ← jsGetField d kGeek
  let collabv ← jsGetField d kCollab
  pure
    { id := jvalNN idv (.atom (.astr (sIdx i)))
      name := jvalNN namev (jvalNN idv (.atom (.astr (studentIdx i))))
      year := yearToNumber yearv
      instruments := toArrayLoose instrumentsv
      genres := toArrayLoose genresv
      artists := toArrayLoose artistsv
      roles := toArrayLoose rolesv
      geek := toArrayLoose geekv
      collab := jvalNN collabv (.atom (.astr "")) }

/-- `raw.map((d, i) => ...)` with its running index. -/
def normList : Nat → List JItem → Except Unit (List Entity)
  | _, [] => .ok []
  | i, d :: rest => do
    let e ← normalizeRecord i d
    let es ← normList (i + 1) rest
    pure (e :: es)

/-- `normalizeDataset` of `src/src/App.js`: a non-array is treated as `[]`;
an array is normalized record by record. -/
def normalizeDataset : JRaw → Except Unit (List Entity)
  | .notArray => .ok []
  | .arr xs => normList 0 xs

/-- `toSet` of `src/src/App.js`: lowercase every token and deduplicate
(`new Set(arr.map(x => String(x).toLowerCase()))`). -/
def toSetL (arr : List String) : List String := (arr.map jsToLower).dedup

/-- `overlapCount`: the number of (distinct) tokens of `A` also in `B`. -/
def overlapCount (A B : List String) : Nat :=
  (A.filter (fun v => decide (v ∈ B))).length

def kModeInstrument : String := "instrument"
def kModeInstruments : String := "instruments"
def kModeInfluences : String := "influences"
def kModeBand : String := "band"
def kModeIdeal : String := "ideal"

/-- `scoreInstrument` of `src/src/App.js`. -/
def scoreInstrument (a b : Entity) : ℚ :=
  (overlapCount (toSetL a.instruments) (toSetL b.instruments) : ℚ) * 3

/-- `scoreInfluences` of `src/src/App.js`. -/
def scoreInfluences (a b : Entity) : ℚ :=
  (overlapCount (toSetL a.artists) (toSetL b.artists) : ℚ) * 3 +
    (overlapCount (toSetL a.genres) (toSetL b.genres) : ℚ) * 2

/-- `scoreIdealBand` of `src/src/App.js`. -/
def scoreIdealBand (a b : Entity) : ℚ :=
  (overlapCount (toSetL a.instruments) (toSetL b.instruments) : ℚ) * 2 +
    (overlapCount (toSetL a.roles) (toSetL b.roles) : ℚ) * 2 +
    (overlapCount (toSetL a.genres) (toSetL b.genres) : ℚ) * 2 +
    (overlapCount (toSetL a.artists) (toSetL b.artists) : ℚ) * 2 +
    (overlapCount (toSetL a.geek) (toSetL b.geek) : ℚ) * 1

/-- `similarityScore` of `src/src/App.js`: `0` for a missing argument or a
self-pair, then mode dispatch with `scoreIdealBand` as the default. -/
def similarityScore (oa ob : Option Entity) (mode : String) : ℚ :=
  match oa, ob with
  | some a, some b =>
    if a.id = b.id then 0
    else if mode = kModeInstrument then scoreInstrument a b
    else if mode = kModeInfluences then scoreInfluences a b
    else scoreIdealBand a b
  | _, _ => 0

/-- `similarityScore` of `src/unnamed/part_000` (modes `instruments`,
`influences`, default `band`). -/
def similarityScore000 (oa ob : Option Entity) (mode : String) : ℚ :=
  match oa, ob with
  | some a, some b =>
    if a.id = b.id then 0
    else
      let inst := (overlapCount (toSetL a.instruments) (toSetL b.instruments) : ℚ)
      let gen := (overlapCount (toSetL a.genres) (toSetL b.genres) : ℚ)
      let art := (overlapCount (toSetL a.artists) (toSetL b.artists) : ℚ)
      let rol := (overlapCount (toSetL a.roles) (toSetL b.roles) : ℚ)
      let gek := (overlapCount (toSetL a.geek) (toSetL b.geek) : ℚ)
      if mode = kModeInstruments then inst * 6 + rol * 2 + gen * 1 + art * 1
      else if mode = kModeInfluences then art * 5 + gen * 4 + inst * 1 + rol * 1
      else inst * 3 + rol * 3 + art * 2 + gen * 2 + gek * 1
  | _, _ => 0

/-- `normToken` of `src/unnamed/part_001`. -/
def normToken (s : String) : String := jsTrim (jsToLower s)

/-- `toSet` of `src/unnamed/part_001`: normalize each token, drop empty
ones, deduplicate. -/
def toSet001 (arr : List String) : List String :=
  ((arr.map normToken).filter (fun s => s != "")).dedup

/-- `scoreForMode` of `src/unnamed/part_001` (modes `instruments`,
`influences`, default `ideal`; geek weight `0.75`). -/
def scoreForMode (oa ob : Option Entity) (modeKey : String) : ℚ :=
  match oa, ob with
  | some a, some b =>
    if a.id = b.id then 0
    else if modeKey = kModeInstruments then
      (overlapCount (toSet001 a.instruments) (toSet001 b.instruments) : ℚ) * 5
    else if modeKey = kModeInfluences then
      (overlapCount (toSet001 a.artists) (toSet001 b.artists) : ℚ) * 4 +
        (overlapCount (toSet001 a.genres) (toSet001 b.genres) : ℚ) * 2
    else
      (overlapCount (toSet001 a.instruments) (toSet001 b.instruments) : ℚ) * 3 +
        (overlapCount (toSet001 a.genres) (toSet001 b.genres) : ℚ) * 2 +
        (overlapCount (toSet001 a.artists) (toSet001 b.artists) : ℚ) * 2 +
        (overlapCount (toSet001 a.roles) (toSet001 b.roles) : ℚ) * 1 +
        (overlapCount (toSet001 a.geek) (toSet001 b.geek) : ℚ) * (3 / 4)
  | _, _ => 0

/-- Canonical entity of `src/bmsmusic/nodebox/src/App.js`, whose
`normalizeDataset` stringifies `id`/`name` and lowercases `collab`. -/
structure NEntity where
  id : String
  name : String
  year : Option Nat
  collab : String
  instruments : List String
  genres : List String
  artists : List String
  roles : List String
  geek : List String
  deriving DecidableEq, Repr, Inhabited

/-- `toSet` of the nodebox variant: lowercase, trim, drop empties,
deduplicate. -/
def toSetN (arr : List String) : List String :=
  ((arr.map (fun x => jsTrim (jsToLower x))).filter (fun s => s != "")).dedup

def kYes : String := "yes"
def kMaybe : String := "maybe"

/-- The weighted-overlap part `s = ins*3 + gen*2 + art*2 + rol*1 + gek*1`
of the nodebox `similarityScore`, before the collaboration bonus. -/
def nodeboxBase (a b : NEntity) : ℚ :=
  (overlapCount (toSetN a.instruments) (toSetN b.instruments) : ℚ) * 3 +
    (overlapCount (toSetN a.genres) (toSetN b.genres) : ℚ) * 2 +
    (overlapCount (toSetN a.artists) (toSetN b.artists) : ℚ) * 2 +
    (overlapCount (toSetN a.roles) (toSetN b.roles) : ℚ) * 1 +
    (overlapCount (toSetN a.geek) (toSetN b.geek) : ℚ) * 1

/-- `similarityScore` of the nodebox variant: the fixed weighted blend plus
a collaboration-interest bonus read from the two `collab` flags
(`ca = (a.collab || "").toLowerCase()`, and likewise `cb`; for the string
field produced by this variant's normalizer, `(s || "")` is `s` itself when
non-empty and `""` otherwise, so it is `toLowerCase` of the field). -/
def similarityScoreN (oa ob : Option NEntity) : ℚ :=
  match oa, ob with
  | some a, some b =>
    if a.id = b.id then 0
    else
      let s := nodeboxBase a b
      let ca := jsToLower a.collab
      let cb := jsToLower b.collab
      let s1 := s + (if ca = kYes ∧ (cb = kYes ∨ cb = kMaybe) then 1 else 0)
      let s2 := s1 + (if cb = kYes ∧ (ca = kYes ∨ ca = kMaybe) then 1 else 0)
      s2
  | _, _ => 0

/-- The `clamp(n, a, b) = Math.max(a, Math.min(b, n))` helper, on ℚ. -/
def jsClamp (n a b : ℚ) : ℚ := max a (min b n)

/-- `clamp` applied to the integer Top-N slider values. -/
def jsClampNat (n a b : Nat) : Nat := max a (min b n)

/-- A drawn link: `{from, to, ratio, width}`. -/
structure Link where
  fromEnt : Entity
  toEnt : Entity
  ratio : ℚ
  width : ℚ
  deriving DecidableEq, Repr

/-- The sort comparator `(a, b) => b.s - a.s` of every `links` useMemo:
JS `Array.prototype.sort` is a stable sort that puts `a` before `b`
when the comparator is `≤ 0`, i.e. when `b.s ≤ a.s`. -/
def scoreDescBool (x y : Entity × ℚ) : Bool := decide (y.2 ≤ x.2)

/-- The qualifying candidates of the `links` useMemo in `src/src/App.js`:
drop the active node, score every candidate, keep positive scores (in pool
order, before sorting). -/
def qualifyingSrc (active : Entity) (nodes : List Entity) (mode : String) :
    List (Entity × ℚ) :=
  ((nodes.filter (fun n => n.id != active.id)).map
    (fun n => (n, similarityScore (some active) (some n) mode))).filter
    (fun x => decide (0 < x.2))

/-- The candidate pipeline of the `links` useMemo in `src/src/App.js`:
stable-sort the qualifying candidates by score descending, then
`slice(0, clamp(topN, 1, 40))`. -/
def selectScoredSrc (active : Entity) (nodes : List Entity) (mode : String)
    (topN : Nat) : List (Entity × ℚ) :=
  ((qualifyingSrc active nodes mode).mergeSort scoreDescBool).take (jsClampNat topN 1 40)

/-- The `links` useMemo of `src/src/App.js`: `max = scored[0]?.s ?? 1`,
`ratio = clamp(s / max, 0, 1)`, `width = 1.0 + ratio * 3.6`. -/
def linksSrc (active : Entity) (nodes : List Entity) (mode : String)
    (topN : Nat) : List Link :=
  let scored := selectScoredSrc active nodes mode topN
  let mx := ((scored.head?).map Prod.snd).getD 1
  scored.map (fun p =>
    let r := jsClamp (p.2 / mx) 0 1
    { fromEnt := active, toEnt := p.1, ratio := r, width := 1 + r * (36 / 10) })

/-- The qualifying candidates of the `links` useMemo in
`src/unnamed/part_000`. -/
def qualifying000 (active : Entity) (nodes : List Entity) (mode : String) :
    List (Entity × ℚ) :=
  ((nodes.filter (fun n => n.id != active.id)).map
    (fun n => (n, similarityScore000 (some active) (some n) mode))).filter
    (fun x => decide (0 < x.2))

/-- The candidate pipeline of the `links` useMemo in
`src/unnamed/part_000` (sorted, before slicing). -/
def selectScored000 (active : Entity) (nodes : List Entity) (mode : String) :
    List (Entity × ℚ) :=
  (qualifying000 active nodes mode).mergeSort scoreDescBool

/-- The `links` useMemo of `src/unnamed/part_000`:
`take = clamp(linksCount, 3, 12)`, `max = sliced[0]?.s ?? 1`,
`width = 1.2 + ratio * 3.0`. -/
def links000 (active : Entity) (nodes : List Entity) (mode : String)
    (linksCount : Nat) : List Link :=
  let scored := selectScored000 active nodes mode
  let cnt := jsClampNat linksCount 3 12
  let sliced := scored.take cnt
  let mx := ((sliced.head?).map Prod.snd).getD 1
  sliced.map (fun p =>
    let r := jsClamp (p.2 / mx) 0 1
    { fromEnt := active, toEnt := p.1, ratio := r, width := 12 / 10 + r * 3 })

/-- The qualifying candidates of the `links` useMemo in
`src/unnamed/part_001`. -/
def qualifying001 (active : Entity) (nodes : List Entity) (mode : String) :
    List (Entity × ℚ) :=
  ((nodes.filter (fun n => n.id != active.id)).map
    (fun n => (n, scoreForMode (some active) (some n) mode))).filter
    (fun x => decide (0 < x.2))

/-- The candidate pipeline of the `links` useMemo in
`src/unnamed/part_001`: `slice(0, clamp(linksN, minLinks, maxLinks))` with
`minLinks = 3` and `maxLinks = isMobile ? 8 : 12`. -/
def selectScored001 (active : Entity) (nodes : List Entity) (mode : String)
    (linksN : Nat) (isMobile : Bool) : List (Entity × ℚ) :=
  ((qualifying001 active nodes mode).mergeSort scoreDescBool).take
    (jsClampNat linksN 3 (if isMobile then 8 else 12))

/-- The `links` useMemo of `src/unnamed/part_001`:
`max = scored[0]?.s ?? 1`, `width = 1.1 + ratio * (isMobile ? 2.2 : 3.0)`. -/
def links001 (active : Entity) (nodes : List Entity) (mode : String)
    (linksN : Nat) (isMobile : Bool) : List Link :=
  let scored := selectScored001 active nodes mode linksN isMobile
  let mx := ((scored.head?).map Prod.snd).getD 1
  scored.map (fun p =>
    let r := jsClamp (p.2 / mx) 0 1
    { fromEnt := active, toEnt := p.1, ratio := r,
      width := 11 / 10 + r * (if isMobile then 22 / 10 else 3) })

/-- A laid-out node of `computeConstellationPositions` (`{...d, cx, cy}`). -/
structure CNode where
  ent : Entity
  cx : ℚ
  cy : ℚ
  deriving DecidableEq, Repr

/-- A year-group record of `computeConstellationPositions`. -/
structure CGroup where
  year : Nat
  gcx : ℚ
  gcy : ℚ
  labelX : ℚ
  labelY : ℚ
  deriving DecidableEq, Repr

/-- The grouping key `d.year ?? 99` of `computeConstellationPositions`. -/
def yearKey (d : Entity) : Nat := d.year.getD 99

/-- The name comparator `String(a.name).localeCompare(String(b.name))`,
modelled as code-point order (any total order; stable sort). -/
def nameLeBool (a b : Entity) : Bool := decide (jvalToString a.name ≤ jvalToString b.name)

/-- The body of the `years.forEach((y, gi) => ...)` loop of
`computeConstellationPositions`: one year group's positioned nodes and
its group record. -/
def constellationGroup (cosF sinF : ℚ → ℚ) (piQ : ℚ) (data : List Entity)
    (cx cy groupRingRx groupRingRy localR offset : ℚ) (groupCount : Nat)
    (gi : Nat × Nat) : List CNode × CGroup :=
  let y := gi.2
  let group := data.filter (fun d => yearKey d == y)
  let ga := offset + ((gi.1 : ℚ) / (groupCount : ℚ)) * piQ * 2
  let gcx := cx + cosF ga * groupRingRx
  let gcy := cy + sinF ga * groupRingRy
  let labelX := cx + (gcx - cx) * (55 / 100)
  let labelY := cy + (gcy - cy) * (55 / 100)
  let sorted := group.mergeSort nameLeBool
  let count := sorted.length
  let ringR : ℚ :=
    if count ≤ 1 then 0
    else if count = 2 then localR * (45 / 100)
    else localR * (86 / 100)
  let localOffset := ga - piQ / 2
  let nodes := sorted.enum.map (fun ip =>
    let ang :=
      if count ≤ 1 then localOffset
      else localOffset + ((ip.1 : ℚ) / (count : ℚ)) * piQ * 2
    CNode.mk ip.2 (gcx + cosF ang * ringR) (gcy + sinF ang * ringR))
  (nodes, CGroup.mk y gcx gcy labelX labelY)

/-- `computeConstellationPositions` of `src/src/App.js`.  The insertion-order
keys of the `byYear` map, sorted numerically, are the sorted deduplicated
year keys; positions are computed with the abstracted trig parameters.
Note: there is no clamping of the emitted `cx`/`cy`. -/
def computeConstellationPositions (cosF sinF : ℚ → ℚ) (piQ : ℚ)
    (data : List Entity) (W H : ℚ) : List CNode × List CGroup :=
  let cx := W / 2
  let cy := H / 2
  let margin : ℚ := 28
  let outerR := max 0 (min W H / 2 - margin)
  let years := ((data.map yearKey).dedup).mergeSort (fun a b => a ≤ b)
  let groupCount : Nat := max 1 years.length
  let groupRingRx := outerR * (66 / 100)
  let groupRingRy := outerR * (1 / 2)
  let localR := jsClamp (outerR * (18 / 100)) 22 110
  let offset := -(piQ / 2)
  let perGroup := years.enum.map
    (constellationGroup cosF sinF piQ data cx cy groupRingRx groupRingRy localR
      offset groupCount)
  ((perGroup.map Prod.fst).flatten, perGroup.map Prod.snd)

/-- A positioned node of `computeYearClusterPositions`
(`{...n, cx, cy, yearCx, yearCy}`). -/
structure PCNode where
  ent : Entity
  cx : ℚ
  cy : ℚ
  yearCx : ℚ
  yearCy : ℚ
  deriving DecidableEq, Repr

/-- `uniqueSortedYears` of `src/unnamed/part_000`: the distinct non-null
years, sorted ascending. -/
def uniqueSortedYears (nodes : List Entity) : List Nat :=
  ((nodes.filterMap Entity.year).dedup).mergeSort (fun a b => a ≤ b)

/-- Whether a year passes the `yearFilter` (`none` models `"all"`). -/
def passYearFilter (yearFilter : Option Nat) (y : Nat) : Bool :=
  match yearFilter with
  | none => true
  | some yf => y == yf

/-- The insertion-order keys of the `byYear` map in
`computeYearClusterPositions`: first occurrence among the nodes that have a
year and pass the filter. -/
def firstOccurrenceKeys (nodes : List Entity) (yearFilter : Option Nat) : List Nat :=
  (nodes.filterMap (fun n =>
    match n.year with
    | none => none
    | some y => if passYearFilter yearFilter y then some y else none)).foldl
    (fun acc y => if y ∈ acc then acc else acc ++ [y]) []

/-- `computeYearClusterPositions` of `src/unnamed/part_000`.  Entities with
`year == null` are skipped when building `byYear` and so are absent from
`positioned`. -/
def computeYearClusterPositions (cosF sinF : ℚ → ℚ) (piQ : ℚ)
    (nodes : List Entity) (W H rotation : ℚ) (isMobile : Bool)
    (yearFilter : Option Nat) : List PCNode × List (Nat × ℚ × ℚ) :=
  let cx := W / 2
  let cy := H / 2
  let years := uniqueSortedYears nodes
  let filteredYears :=
    match yearFilter with
    | none => years
    | some yf => years.filter (fun y => y == yf)
  let yearRingR := if isMobile then min W H * (22 / 100) else min W H * (28 / 100)
  let nodeRingR := if isMobile then min W H * (75 / 1000) else min W H * (85 / 1000)
  let yearCenters : List (Nat × ℚ × ℚ) :=
    if isMobile = true ∧ filteredYears.length = 1 then
      filteredYears.map (fun y => (y, cx, cy - 10))
    else
      -- `filteredYears.length || 1`
      let count : Nat := max 1 filteredYears.length
      let offset := -(piQ / 2)
      filteredYears.enum.map (fun iy =>
        let a := offset + ((iy.1 : ℚ) / (count : ℚ)) * piQ * 2 + rotation
        (iy.2, cx + cosF a * yearRingR, cy + sinF a * yearRingR))
  let keys := firstOccurrenceKeys nodes yearFilter
  let positioned := keys.flatMap (fun y =>
    match yearCenters.lookup y with
    | none => []
    | some c =>
      let arr := (nodes.filter (fun n => n.year == some y)).mergeSort nameLeBool
      -- `arr.length || 1`
      let m : Nat := max 1 arr.length
      let offset2 := -(piQ / 2)
      arr.enum.map (fun ip =>
        let localRot := rotation * (35 / 100)
        let a := offset2 + ((ip.1 : ℚ) / (m : ℚ)) * piQ * 2 + localRot
        PCNode.mk ip.2 (c.1 + cosF a * nodeRingR) (c.2 + sinF a * nodeRingR) c.1 c.2))
  (positioned, yearCenters)

/-- A positioned node of the nodebox `computePositions`. -/
structure PNode where
  ent : NEntity
  cx : ℚ
  cy : ℚ
  deriving DecidableEq, Repr

/-- `computePositions` of `src/bmsmusic/nodebox/src/App.js`.  `rand id k`
abstracts the `k`-th output of `mulberry32(hashSeed(id))`, `powF`
abstracts `Math.pow(·, 0.62)`; both positions are clamped into
`[26, W − 26] × [26, H − 26]`. -/
def computePositions (rand : String → Nat → ℚ) (powF cosF sinF : ℚ → ℚ)
    (piQ : ℚ) (data : List NEntity) (W H : ℚ) : List PNode :=
  let cx := W / 2
  let cy := H / 2
  let spreadX := max 140 (W * (36 / 100))
  let spreadY := max 120 (H * (28 / 100))
  data.map (fun d =>
    let u1 := rand d.id 0
    let u2 := rand d.id 1
    let u3 := rand d.id 2
    let u4 := rand d.id 3
    let r := powF u1
    let a := u2 * piQ * 2
    let jx := (u3 * 2 - 1) * 18
    let jy := (u4 * 2 - 1) * 14
    let x := cx + cosF a * r * spreadX + jx
    let y := cy + sinF a * r * spreadY + jy
    PNode.mk d (jsClamp x 26 (W - 26)) (jsClamp y 26 (H - 26)))

/-- Whether a raw array element is `null`/`undefined` (property access on it
throws). -/
def itemNullish : JItem → Bool
  | .prim .anull => true
  | .prim .aundef => true
  | _ => false

/-- The value of field `k` of a non-nullish raw array element (`undefined`
for primitives and for objects lacking the field). -/
def rawFieldOf (d : JItem) (k : String) : JVal :=
  match d with
  | .prim _ => .atom .aundef
  | .obj fields => (fields.lookup k).getD (.atom .aundef)

/-- The id `d.id ?? s-<i>` that record `i` contributes. -/
def rawIdAt (i : Nat) (d : JItem) : JVal :=
  jvalNN (rawFieldOf d kId) (.atom (.astr (sIdx i)))

/-- The ids contributed by the raw records, with their running index. -/
def rawIdsFrom : Nat → List JItem → List JVal
  | _, [] => []
  | i, d :: rest => rawIdAt i d :: rawIdsFrom (i + 1) rest

/-- The entity `normalizeRecord i d` produces for a non-nullish record
`d`, written without the throwing field accesses. -/
def normEntity (i : Nat) (d : JItem) : Entity :=
  { id := jvalNN (rawFieldOf d kId) (.atom (.astr (sIdx i)))
    name := jvalNN (rawFieldOf d kName)
      (jvalNN (rawFieldOf d kId) (.atom (.astr (studentIdx i))))
    year := yearToNumber (rawFieldOf d kYear)
    instruments := toArrayLoose (rawFieldOf d kInstruments)
    genres := toArrayLoose (rawFieldOf d kGenres)
    artists := toArrayLoose (rawFieldOf d kArtists)
    roles := toArrayLoose (rawFieldOf d kRoles)
    geek := toArrayLoose (rawFieldOf d kGeek)
    collab := jvalNN (rawFieldOf d kCollab) (.atom (.astr "")) }

/-- An entity with no year, used to instantiate the layout theorems. -/
def entNoYear : Entity :=
  { id := .atom (.astr "e1"), name := .atom (.astr "E"), year := none,
    instruments := [], genres := [], artists := [], roles := [], geek := [],
    collab := .atom (.astr "") }

/-- A guitar-playing active entity for the selector theorems. -/
def cActive : Entity :=
  { id := .atom (.astr "act"), name := .atom (.astr "A"), year := none,
    instruments := ["guitar"], genres := [], artists := [], roles := [],
    geek := [], collab := .atom (.astr "") }

/-- The `i`-th guitar-playing candidate. -/
def mkCand (i : Nat) : Entity :=
  { id := .atom (.anum i), name := .atom (.astr "C"), year := none,
    instruments := ["guitar"], genres := [], artists := [], roles := [],
    geek := [], collab := .atom (.astr "") }

/-- A pool of 25 qualifying candidates. -/
def cPool : List Entity := (List.range 25).map mkCand

/-- Two candidates with equal scores whose pool order disagrees with
ascending name order. -/
def tCand1 : Entity := { mkCand 1 with name := .atom (.astr "z") }

def tCand2 : Entity := { mkCand 2 with name := .atom (.astr "a") }

def tPool : List Entity := [tCand1, tCand2]

/-- A mode string outside the enumerated set. -/
def bogusMode : String := "banana"

/-- A nodebox entity for the layout/score theorems. -/
def wN : NEntity :=
  { id := "n1", name := "N", year := none, collab := "",
    instruments := [], genres := [], artists := [], roles := [], geek := [] }

def nYes : NEntity := { wN with id := "p", collab := "YES" }

def nMaybe : NEntity := { wN with id := "q", collab := "maybe" }

/-- A concrete run of the nodebox layout (all float parameters
instantiated at the zero function). -/
def c1demo : List PNode :=
  computePositions (fun _ _ => 0) (fun _ => 0) (fun _ => 0) (fun _ => 0) 0
    [wN] 400 400

def c1demoNode : PNode := c1demo.getD 0 (PNode.mk wN 0 0)

/-- One raw record with no fields at all. -/
def w2xs : List JItem := [JItem.obj []]

/-- Two raw records with distinct explicit ids. -/
def w6xs : List JItem :=
  [JItem.obj [(kId, JVal.atom (JAtom.astr "a"))],
    JItem.obj [(kId, JVal.atom (JAtom.astr "b"))]]

/-- Two raw records with the same explicit id. -/
def dup6xs : List JItem :=
  [JItem.obj [(kId, JVal.atom (JAtom.astr "a"))],
    JItem.obj [(kId, JVal.atom (JAtom.astr "a"))]]

def kRole : String := "role"

/-- `toArrayLoose` of `src/bmsmusic/nodebox/src/App.js`: falsy input gives
`[]`; otherwise stringify element-wise (an array) or split a scalar on
commas, then trim, drop empty pieces, and lowercase. -/
def toArrayLooseN (v : JVal) : List String :=
  if jvalFalsy v then []
  else
    match v with
    | .list xs =>
      (((xs.map (fun x => jsTrim (jatomToString x))).filter
        (fun s => s != ""))).map jsToLower
    | .atom a =>
      (((jsSplitComma (jatomToString a)).map jsTrim).filter
        (fun s => s != "")).map jsToLower

/-- `yearToNumber` of the nodebox variant: like the `src/src` one but the
stringified value is lowercased before matching (digits are unaffected,
the lowercasing is kept for faithfulness). -/
def yearToNumberN (v : JVal) : Option Nat :=
  match firstDigitRun
      ((jsToLower (jvalToString (jvalNN v (.atom (.astr ""))))).data) with
  | none => none
  | some (c, none) => some (digitVal c)
  | some (c, some d) => some (digitVal c * 10 + digitVal d)

/-- JS `s.padStart(2, "0")`. -/
def padStart2 (s : String) : String :=
  if 2 ≤ s.length then s else String.mk (List.replicate (2 - s.length) '0') ++ s

/-- The nodebox fallback id `s-<padStart2(idx+1)>`. -/
def sIdxN (i : Nat) : String := "s-" ++ padStart2 (toString (i + 1))

/-- The id the nodebox normalizer computes for record `i`:
`d.id ? String(d.id).trim() : s-XX` — the fallback fires on any *falsy*
id, and a truthy id is stringified and trimmed. -/
def rawIdAtN (i : Nat) (d : JItem) : String :=
  if jvalFalsy (rawFieldOf d kId) then sIdxN i
  else jsTrim (jvalToString (rawFieldOf d kId))

/-- The ids the nodebox normalizer computes record by record (before its
final truthiness filter). -/
def rawIdsFromN : Nat → List JItem → List String
  | _, [] => []
  | i, d :: rest => rawIdAtN i d :: rawIdsFromN (i + 1) rest

/-- One step of the nodebox `normalizeDataset`'s `.map((d, idx) => ...)`;
every field access on `d` throws if `d` is `null`/`undefined`.  (JS reads
`d.role` and, only when it is nullish, `d.roles`; for a non-nullish `d`
reading both unconditionally is observationally the same.) -/
def normalizeRecordN (i : Nat) (d : JItem) : Except Unit NEntity := do
  let idv ← jsGetField d kId
  let namev ← jsGetField d kName
  let yearv ← jsGetField d kYear
  let collabv ← jsGetField d kCollab
  let instrumentsv ← jsGetField d kInstruments
  let genresv ← jsGetField d kGenres
  let artistsv ← jsGetField d kArtists
  let rolev ← jsGetField d kRole
  let rolesv ← jsGetField d kRoles
  let geekv ← jsGetField d kGeek
  let id := if jvalFalsy idv then sIdxN i else jsTrim (jvalToString idv)
  pure
    { id := id
      name := if jvalFalsy namev then id else jsTrim (jvalToString namev)
      year := yearToNumberN yearv
      collab := if jvalFalsy collabv then ""
        else jsToLower (jsTrim (jvalToString collabv))
      instruments := toArrayLooseN instrumentsv
      genres := toArrayLooseN genresv
      artists := toArrayLooseN artistsv
      roles := toArrayLooseN (jvalNN rolev rolesv)
      geek := toArrayLooseN geekv }

/-- `arr.map((d, idx) => ...)` of the nodebox normalizer, with its running
index. -/
def normListN : Nat → List JItem → Except Unit (List NEntity)
  | _, [] => .ok []
  | i, d :: rest => do
    let e ← normalizeRecordN i d
    let es ← normListN (i + 1) rest
    pure (e :: es)

/-- `normalizeDataset` of `src/bmsmusic/nodebox/src/App.js`: a non-array
is treated as `[]`; the mapped records are then passed through
`.filter((d) => d.id)`, which drops any record whose id string is empty
(a truthy raw id whose stringification trims to `""`). -/
def normalizeDatasetN : JRaw → Except Unit (List NEntity)
  | .notArray => .ok []
  | .arr xs => do
    let es ← normListN 0 xs
    pure (es.filter (fun d => d.id != ""))

/-- The entity `normalizeRecordN i d` produces for a non-nullish record
`d`, written without the throwing field accesses. -/
def normEntityN (i : Nat) (d : JItem) : NEntity :=
  { id := rawIdAtN i d
    name := if jvalFalsy (rawFieldOf d kName) then rawIdAtN i d
      else jsTrim (jvalToString (rawFieldOf d kName))
    year := yearToNumberN (rawFieldOf d kYear)
    collab := if jvalFalsy (rawFieldOf d kCollab) then ""
      else jsToLower (jsTrim (jvalToString (rawFieldOf d kCollab)))
    instruments := toArrayLooseN (rawFieldOf d kInstruments)
    genres := toArrayLooseN (rawFieldOf d kGenres)
    artists := toArrayLooseN (rawFieldOf d kArtists)
    roles := toArrayLooseN (jvalNN (rawFieldOf d kRole) (rawFieldOf d kRoles))
    geek := toArrayLooseN (rawFieldOf d kGeek)}

/-- One raw record whose explicit id is truthy but trims to the empty
string. -/
def blankIdXs : List JItem := [JItem.obj [(kId, JVal.atom (JAtom.astr " "))]]

/-- Two raw records whose distinct explicit ids collide after the nodebox
stringify-and-trim. -/
def dup6xsN : List JItem :=
  [JItem.obj [(kId, JVal.atom (JAtom.astr "a"))],
    JItem.obj [(kId, JVal.atom (JAtom.astr "a "))]]

/-! ### Helper lemmas -/

theorem jsClamp_lower (n a b : ℚ) : a ≤ jsClamp n a b := le_max_left a (min b n)

theorem jsClamp_upper (n a b : ℚ) (h : a ≤ b) : jsClamp n a b ≤ b :=
  max_le h (min_le_left b n)

theorem overlapCount_comm (A B : List String) (hA : A.Nodup) (hB : B.Nodup) :
    overlapCount A B = overlapCount B A := by
  have h1 : (A.filter (fun v => decide (v ∈ B))).Nodup := hA.filter _
  have h2 : (B.filter (fun v => decide (v ∈ A))).Nodup := hB.filter _
  unfold overlapCount
  rw [← List.toFinset_card_of_nodup h1, ← List.toFinset_card_of_nodup h2]
  congr 1
  ext x
  simp only [List.mem_toFinset, List.mem_filter, decide_eq_true_eq]
  exact and_comm

theorem overlapCount_toSetL_comm (A B : List String) :
    overlapCount (toSetL A) (toSetL B) = overlapCount (toSetL B) (toSetL A) :=
  overlapCount_comm _ _ (List.nodup_dedup _) (List.nodup_dedup _)

theorem overlapCount_toSet001_comm (A B : List String) :
    overlapCount (toSet001 A) (toSet001 B) = overlapCount (toSet001 B) (toSet001 A) :=
  overlapCount_comm _ _ (List.nodup_dedup _) (List.nodup_dedup _)

theorem overlapCount_toSetN_comm (A B : List String) :
    overlapCount (toSetN A) (toSetN B) = overlapCount (toSetN B) (toSetN A) :=
  overlapCount_comm _ _ (List.nodup_dedup _) (List.nodup_dedup _)

theorem scoreInstrument_comm (a b : Entity) :
    scoreInstrument a b = scoreInstrument b a := by
  unfold scoreInstrument; rw [overlapCount_toSetL_comm]

theorem scoreInfluences_comm (a b : Entity) :
    scoreInfluences a b = scoreInfluences b a := by
  unfold scoreInfluences
  rw [overlapCount_toSetL_comm a.artists, overlapCount_toSetL_comm a.genres]

theorem scoreIdealBand_comm (a b : Entity) :
    scoreIdealBand a b = scoreIdealBand b a := by
  unfold scoreIdealBand
  rw [overlapCount_toSetL_comm a.instruments, overlapCount_toSetL_comm a.roles,
    overlapCount_toSetL_comm a.genres, overlapCount_toSetL_comm a.artists,
    overlapCount_toSetL_comm a.geek]

theorem nodeboxBase_comm (a b : NEntity) : nodeboxBase a b = nodeboxBase b a := by
  unfold nodeboxBase
  rw [overlapCount_toSetN_comm a.instruments, overlapCount_toSetN_comm a.genres,
    overlapCount_toSetN_comm a.artists, overlapCount_toSetN_comm a.roles,
    overlapCount_toSetN_comm a.geek]

/-! ### C7: symmetry of the similarity score -/

/-- C7: for all entities `a`, `b` and every mode `m`, the similarity score
is commutative, `score(a, b, m) = score(b, a, m)`, in all four scorer
variants — including the nodebox variant whose score adds a
collaboration-interest bonus based on both entities' `collab` flags. -/
theorem spec_C7_score_symmetric (oa ob : Option Entity) (mode : String)
    (na nb : Option NEntity) :
    similarityScore oa ob mode = similarityScore ob oa mode ∧
    similarityScore000 oa ob mode = similarityScore000 ob oa mode ∧
    scoreForMode oa ob mode = scoreForMode ob oa mode ∧
    similarityScoreN na nb = similarityScoreN nb na := by
  refine ⟨?_, ?_, ?_, ?_⟩
  · cases oa with
    | none => cases ob <;> rfl
    | some a =>
      cases ob with
      | none => rfl
      | some b =>
        simp only [similarityScore]
        by_cases hab : a.id = b.id
        · rw [if_pos hab, if_pos hab.symm]
        · have hba : ¬ b.id = a.id := fun h => hab h.symm
          rw [if_neg hab, if_neg hba]
          by_cases h1 : mode = kModeInstrument
          · rw [if_pos h1, if_pos h1, scoreInstrument_comm]
          · rw [if_neg h1, if_neg h1]
            by_cases h2 : mode = kModeInfluences
            · rw [if_pos h2, if_pos h2, scoreInfluences_comm]
            · rw [if_neg h2, if_neg h2, scoreIdealBand_comm]
  · cases oa with
    | none => cases ob <;> rfl
    | some a =>
      cases ob with
      | none => rfl
      | some b =>
        simp only [similarityScore000]
        by_cases hab : a.id = b.id
        · rw [if_pos hab, if_pos hab.symm]
        · have hba : ¬ b.id = a.id := fun h => hab h.symm
          rw [if_neg hab, if_neg hba]
          by_cases h1 : mode = kModeInstruments
          · rw [if_pos h1, if_pos h1,
              overlapCount_toSetL_comm a.instruments b.instruments,
              overlapCount_toSetL_comm a.roles b.roles,
              overlapCount_toSetL_comm a.genres b.genres,
              overlapCount_toSetL_comm a.artists b.artists]
          · rw [if_neg h1, if_neg h1]
            by_cases h2 : mode = kModeInfluences
            · rw [if_pos h2, if_pos h2,
                overlapCount_toSetL_comm a.artists b.artists,
                overlapCount_toSetL_comm a.genres b.genres,
                overlapCount_toSetL_comm a.instruments b.instruments,
                overlapCount_toSetL_comm a.roles b.roles]
            · rw [if_neg h2, if_neg h2,
                overlapCount_toSetL_comm a.instruments b.instruments,
                overlapCount_toSetL_comm a.roles b.roles,
                overlapCount_toSetL_comm a.artists b.artists,
                overlapCount_toSetL_comm a.genres b.genres,
                overlapCount_toSetL_comm a.geek b.geek]
  · cases oa with
    | none => cases ob <;> rfl
    | some a =>
      cases ob with
      | none => rfl
      | some b =>
        simp only [scoreForMode]
        by_cases hab : a.id = b.id
        · rw [if_pos hab, if_pos hab.symm]
        · have hba : ¬ b.id = a.id := fun h => hab h.symm
          rw [if_neg hab, if_neg hba]
          by_cases h1 : mode = kModeInstruments
          · rw [if_pos h1, if_pos h1,
              overlapCount_toSet001_comm a.instruments b.instruments]
          · rw [if_neg h1, if_neg h1]
            by_cases h2 : mode = kModeInfluences
            · rw [if_pos h2, if_pos h2,
                overlapCount_toSet001_comm a.artists b.artists,
                overlapCount_toSet001_comm a.genres b.genres]
            · rw [if_neg h2, if_neg h2,
                overlapCount_toSet001_comm a.instruments b.instruments,
                overlapCount_toSet001_comm a.genres b.genres,
                overlapCount_toSet001_comm a.artists b.artists,
                overlapCount_toSet001_comm a.roles b.roles,
                overlapCount_toSet001_comm a.geek b.geek]
  · cases na with
    | none => cases nb <;> rfl
    | some a =>
      cases nb with
      | none => rfl
      | some b =>
        simp only [similarityScoreN]
        by_cases hab : a.id = b.id
        · rw [if_pos hab, if_pos hab.symm]
        · have hba : ¬ b.id = a.id := fun h => hab h.symm
          rw [if_neg hab, if_neg hba, nodeboxBase_comm]
          exact add_right_comm _ _ _

/-! ### C9: unknown modes fall back to the blended score -/

/-- C9: for every pair of entities, calling the scorer with any mode value
outside the enumerated special keys returns the blended/ideal-band score
(the default branch), and never throws: in `src/src/App.js` the special
keys are `instrument`/`influences` with default `band`; in the two unnamed
variants they are `instruments`/`influences` with defaults `band` and
`ideal`. -/
theorem spec_C9_unknown_mode_default (oa ob : Option Entity) (mode : String) :
    (mode ≠ kModeInstrument → mode ≠ kModeInfluences →
      similarityScore oa ob mode = similarityScore oa ob kModeBand) ∧
    (mode ≠ kModeInstruments → mode ≠ kModeInfluences →
      similarityScore000 oa ob mode = similarityScore000 oa ob kModeBand) ∧
    (mode ≠ kModeInstruments → mode ≠ kModeInfluences →
      scoreForMode oa ob mode = scoreForMode oa ob kModeIdeal) := by
  have hb1 : ¬ (kModeBand = kModeInstrument) := by decide
  have hb2 : ¬ (kModeBand = kModeInfluences) := by decide
  have hb3 : ¬ (kModeBand = kModeInstruments) := by decide
  have hi1 : ¬ (kModeIdeal = kModeInstruments) := by decide
  have hi2 : ¬ (kModeIdeal = kModeInfluences) := by decide
  refine ⟨fun h1 h2 => ?_, fun h1 h2 => ?_, fun h1 h2 => ?_⟩
  · cases oa with
    | none => cases ob <;> rfl
    | some a =>
      cases ob with
      | none => rfl
      | some b =>
        simp only [similarityScore]
        rw [if_neg h1, if_neg h2, if_neg hb1, if_neg hb2]
  · cases oa with
    | none => cases ob <;> rfl
    | some a =>
      cases ob with
      | none => rfl
      | some b =>
        simp only [similarityScore000]
        rw [if_neg h1, if_neg h2, if_neg hb3, if_neg hb2]
  · cases oa with
    | none => cases ob <;> rfl
    | some a =>
      cases ob with
      | none => rfl
      | some b =>
        simp only [scoreForMode]
        rw [if_neg h1, if_neg h2, if_neg hi1, if_neg hi2]

/-- C9 witness: the concrete mode string `banana` scores exactly like the
blended default on concrete entities. -/
theorem spec_C9_unknown_mode_default_witness :
    similarityScore (some cActive) (some (mkCand 3)) bogusMode
      = similarityScore (some cActive) (some (mkCand 3)) kModeBand :=
  (spec_C9_unknown_mode_default (some cActive) (some (mkCand 3)) bogusMode).1
    (by decide) (by decide)

/-! ### C10: the nodebox collaboration bonus -/

/-- C10: in the nodebox scorer, for distinct entities, the collaboration
bonus is `+2` when both `collab` flags lower-case to `yes`, `+1` when a
`yes` is paired with a `maybe` (in either order), and absent whenever
neither flag is `yes` (in particular for `maybe`/`maybe`). -/
theorem spec_C10_collab_bonus (a b : NEntity) (hid : a.id ≠ b.id) :
    (jsToLower a.collab = kYes ∧ jsToLower b.collab = kYes →
      similarityScoreN (some a) (some b) = nodeboxBase a b + 2) ∧
    (jsToLower a.collab = kYes ∧ jsToLower b.collab = kMaybe →
      similarityScoreN (some a) (some b) = nodeboxBase a b + 1) ∧
    (jsToLower a.collab = kMaybe ∧ jsToLower b.collab = kYes →
      similarityScoreN (some a) (some b) = nodeboxBase a b + 1) ∧
    (jsToLower a.collab ≠ kYes ∧ jsToLower b.collab ≠ kYes →
      similarityScoreN (some a) (some b) = nodeboxBase a b) := by
  have hym : ¬ (kMaybe = kYes) := by decide
  refine ⟨fun h => ?_, fun h => ?_, fun h => ?_, fun h => ?_⟩ <;>
    obtain ⟨h1, h2⟩ := h <;>
    simp only [similarityScoreN, if_neg hid]
  · simp [h1, h2]; ring
  · simp [h1, h2, hym]
  · simp [h1, h2, hym]
  · simp [h1, h2]

/-! ### C2 / C6: totality and id behaviour of `normalizeDataset` -/

theorem jsGetField_ok (d : JItem) (k : String) (h : itemNullish d = false) :
    jsGetField d k = .ok (rawFieldOf d k) := by
  cases d with
  | prim a => cases a <;> simp_all [jsGetField, rawFieldOf, itemNullish]
  | obj fs => rfl

theorem normalizeRecord_ok (i : Nat) (d : JItem) (h : itemNullish d = false) :
    normalizeRecord i d = .ok (normEntity i d) := by
  cases d with
  | prim a =>
    cases a with
    | anull => simp [itemNullish] at h
    | aundef => simp [itemNullish] at h
    | abool b => rfl
    | anum n => rfl
    | astr s => rfl
  | obj fs => rfl

theorem normList_ok (xs : List JItem) :
    ∀ i, (∀ d ∈ xs, itemNullish d = false) →
      ∃ es, normList i xs = .ok es ∧ es.length = xs.length ∧
        es.map Entity.id = rawIdsFrom i xs := by
  induction xs with
  | nil => exact fun i _ => ⟨[], rfl, rfl, rfl⟩
  | cons d rest ih =>
    intro i h
    have hd : itemNullish d = false := h d (by simp)
    obtain ⟨es, hes, hlen, hids⟩ := ih (i + 1) (fun x hx => h x (by simp [hx]))
    refine ⟨normEntity i d :: es, ?_, by simp [hlen], ?_⟩
    · simp only [normList, normalizeRecord_ok i d hd, hes]
      rfl
    · simp only [List.map_cons, hids, rawIdsFrom]
      rfl

theorem normalizeRecordN_ok (i : Nat) (d : JItem) (h : itemNullish d = false) :
    normalizeRecordN i d = .ok (normEntityN i d) := by
  cases d with
  | prim a =>
    cases a with
    | anull => simp [itemNullish] at h
    | aundef => simp [itemNullish] at h
    | abool b => rfl
    | anum n => rfl
    | astr s => rfl
  | obj fs => rfl

theorem normListN_ok (xs : List JItem) :
    ∀ i, (∀ d ∈ xs, itemNullish d = false) →
      ∃ es, normListN i xs = .ok es ∧ es.length = xs.length ∧
        es.map NEntity.id = rawIdsFromN i xs := by
  induction xs with
  | nil => exact fun i _ => ⟨[], rfl, rfl, rfl⟩
  | cons d rest ih =>
    intro i h
    have hd : itemNullish d = false := h d (by simp)
    obtain ⟨es, hes, hlen, hids⟩ := ih (i + 1) (fun x hx => h x (by simp [hx]))
    refine ⟨normEntityN i d :: es, ?_, by simp [hlen], ?_⟩
    · simp only [normListN, normalizeRecordN_ok i d hd, hes]
      rfl
    · simp only [List.map_cons, hids, rawIdsFromN]
      rfl

theorem normalizeDatasetN_ids (xs : List JItem)
    (h : ∀ d ∈ xs, itemNullish d = false) :
    ∃ es, normalizeDatasetN (JRaw.arr xs) = Except.ok es ∧
      es.length ≤ xs.length ∧
      es.map NEntity.id = (rawIdsFromN 0 xs).filter (fun s => s != "") := by
  obtain ⟨es0, hes0, hlen0, hids0⟩ := normListN_ok xs 0 h
  refine ⟨es0.filter (fun d => d.id != ""), ?_, ?_, ?_⟩
  · simp only [normalizeDatasetN, hes0]
    rfl
  · exact le_of_le_of_eq (List.length_filter_le _ _) hlen0
  · rw [← hids0, List.filter_map]
    rfl

/-- C2 (amended): every `normalizeDataset` variant maps a non-array to the
empty entity list and never throws on an array whose elements are not
`null`/`undefined`; the `src/src` variant then returns exactly one
canonical entity per record (with the documented fallbacks), while the
nodebox variant keeps one entity per record *except* those whose truthy
raw id stringifies and trims to the empty string, which its final
`.filter((d) => d.id)` drops.  (An array containing a `null` record makes
both throw; see the counterexample.) -/
theorem spec_C2_normalize_total (xs : List JItem)
    (h : ∀ d ∈ xs, itemNullish d = false) :
    (normalizeDataset JRaw.notArray = Except.ok [] ∧
      ∃ es, normalizeDataset (JRaw.arr xs) = Except.ok es ∧
        es.length = xs.length) ∧
    (normalizeDatasetN JRaw.notArray = Except.ok [] ∧
      ∃ es, normalizeDatasetN (JRaw.arr xs) = Except.ok es ∧
        es.length ≤ xs.length ∧
        es.map NEntity.id = (rawIdsFromN 0 xs).filter (fun s => s != "")) := by
  refine ⟨⟨rfl, ?_⟩, rfl, normalizeDatasetN_ids xs h⟩
  obtain ⟨es, hes, hlen, _⟩ := normList_ok xs 0 h
  exact ⟨es, hes, hlen⟩

/-- C2 witness: a one-record array with no fields at all normalizes to one
entity in both variants (the nodebox fallback id `s-01` is non-empty and
survives the final filter). -/
theorem spec_C2_normalize_total_witness :
    (normalizeDataset JRaw.notArray = Except.ok [] ∧
      ∃ es, normalizeDataset (JRaw.arr w2xs) = Except.ok es ∧
        es.length = w2xs.length) ∧
    (normalizeDatasetN JRaw.notArray = Except.ok [] ∧
      ∃ es, normalizeDatasetN (JRaw.arr w2xs) = Except.ok es ∧
        es.length ≤ w2xs.length ∧
        es.map NEntity.id = (rawIdsFromN 0 w2xs).filter (fun s => s != "")) :=
  spec_C2_normalize_total w2xs (by decide)

/-- C2 counterexample: a raw array containing a `null` record makes both
cited `normalizeDataset` variants throw (the property access `d.id` on
`null` is a TypeError), and the nodebox variant additionally returns *no*
entity for a non-null record whose id is `" "` — so `normalizeDataset`
neither accepts every input value nor always yields one entity per
record. -/
theorem spec_C2_cex :
    normalizeDataset (JRaw.arr [JItem.prim JAtom.anull]) = Except.error () ∧
    normalizeDatasetN (JRaw.arr [JItem.prim JAtom.anull]) = Except.error () ∧
    normalizeDatasetN (JRaw.arr blankIdXs) = Except.ok [] :=
  ⟨rfl, rfl, rfl⟩

/-- C6 (amended): neither cited `normalizeDataset` deduplicates ids.  In
the `src/src` variant the normalized ids are exactly the contributed raw
ids (the record's `id` field, or the `s-<index>` fallback when the field
is nullish), so they are pairwise distinct whenever those contributed
values are; in the nodebox variant the kept ids are the trimmed
stringifications of truthy raw ids (with the zero-padded fallback
`s-<idx+1>` when the raw id is falsy), so they are pairwise distinct
whenever those stringify-and-trim results are — distinct raw values such
as `"a"` and `"a "` can still collide there. -/
theorem spec_C6_unique_ids (xs : List JItem)
    (h : ∀ d ∈ xs, itemNullish d = false)
    (hids : (rawIdsFrom 0 xs).Nodup)
    (hidsN : (rawIdsFromN 0 xs).Nodup) :
    (∃ es, normalizeDataset (JRaw.arr xs) = Except.ok es ∧
      es.map Entity.id = rawIdsFrom 0 xs ∧ (es.map Entity.id).Nodup) ∧
    (∃ es, normalizeDatasetN (JRaw.arr xs) = Except.ok es ∧
      es.map NEntity.id = (rawIdsFromN 0 xs).filter (fun s => s != "") ∧
      (es.map NEntity.id).Nodup) := by
  constructor
  · obtain ⟨es, hes, _, hmap⟩ := normList_ok xs 0 h
    exact ⟨es, hes, hmap, hmap ▸ hids⟩
  · obtain ⟨es, hes, _, hmap⟩ := normalizeDatasetN_ids xs h
    exact ⟨es, hes, hmap, hmap ▸ hidsN.filter _⟩

/-- C6 witness: two records with distinct explicit ids normalize to
entities with distinct ids in both variants. -/
theorem spec_C6_unique_ids_witness :
    (∃ es, normalizeDataset (JRaw.arr w6xs) = Except.ok es ∧
      es.map Entity.id = rawIdsFrom 0 w6xs ∧ (es.map Entity.id).Nodup) ∧
    (∃ es, normalizeDatasetN (JRaw.arr w6xs) = Except.ok es ∧
      es.map NEntity.id = (rawIdsFromN 0 w6xs).filter (fun s => s != "") ∧
      (es.map NEntity.id).Nodup) :=
  spec_C6_unique_ids w6xs (by decide) (by decide) (by decide)

/-- C6 counterexample: two records carrying the same explicit id `"a"`
normalize (in `src/src`) to entities with equal ids, and in the nodebox
variant even the *distinct* raw ids `"a"` and `"a "` collide after
stringify-and-trim — `normalizeDataset` enforces no uniqueness. -/
theorem spec_C6_cex :
    ((normalizeDataset (JRaw.arr dup6xs)).toOption.getD []).map Entity.id
        = [JVal.atom (JAtom.astr "a"), JVal.atom (JAtom.astr "a")] ∧
    ¬ (((normalizeDataset (JRaw.arr dup6xs)).toOption.getD []).map
        Entity.id).Nodup ∧
    ((normalizeDatasetN (JRaw.arr dup6xsN)).toOption.getD []).map NEntity.id
        = ["a", "a"] ∧
    ¬ (((normalizeDatasetN (JRaw.arr dup6xsN)).toOption.getD []).map
        NEntity.id).Nodup := by
  refine ⟨by decide, by decide, by decide, by decide⟩

/-! ### Selector lemmas shared by C3, C4 and C8 -/

theorem scoreDescBool_trans (a b c : Entity × ℚ) (hab : scoreDescBool a b)
    (hbc : scoreDescBool b c) : scoreDescBool a c := by
  simp only [scoreDescBool, decide_eq_true_eq] at *
  exact le_trans hbc hab

theorem scoreDescBool_total (a b : Entity × ℚ) :
    scoreDescBool a b || scoreDescBool b a := by
  simp only [scoreDescBool, Bool.or_eq_true, decide_eq_true_eq]
  exact le_total b.2 a.2

theorem selectScoredSrc_length (active : Entity) (nodes : List Entity)
    (mode : String) (topN : Nat) :
    (selectScoredSrc active nodes mode topN).length
      = min (jsClampNat topN 1 40) (qualifyingSrc active nodes mode).length := by
  simp [selectScoredSrc, List.length_take]

theorem linksSrc_length (active : Entity) (nodes : List Entity)
    (mode : String) (topN : Nat) :
    (linksSrc active nodes mode topN).length
      = min (jsClampNat topN 1 40) (qualifyingSrc active nodes mode).length := by
  simp only [linksSrc, List.length_map]
  exact selectScoredSrc_length active nodes mode topN

theorem links000_length (active : Entity) (nodes : List Entity)
    (mode : String) (linksCount : Nat) :
    (links000 active nodes mode linksCount).length
      = min (jsClampNat linksCount 3 12) (qualifying000 active nodes mode).length := by
  simp [links000, selectScored000, List.length_take]

theorem links001_length (active : Entity) (nodes : List Entity)
    (mode : String) (linksN : Nat) (isMobile : Bool) :
    (links001 active nodes mode linksN isMobile).length
      = min (jsClampNat linksN 3 (if isMobile then 8 else 12))
          (qualifying001 active nodes mode).length := by
  simp [links001, selectScored001, List.length_take]

theorem qualifyingSrc_length_le (active : Entity) (nodes : List Entity)
    (mode : String) :
    (qualifyingSrc active nodes mode).length ≤ nodes.length := by
  simp only [qualifyingSrc]
  exact le_trans (List.length_filter_le _ _)
    (le_of_eq (List.length_map _ _) |>.trans (List.length_filter_le _ _))

theorem selectScoredSrc_pairwise (active : Entity) (nodes : List Entity)
    (mode : String) (topN : Nat) :
    (selectScoredSrc active nodes mode topN).Pairwise (fun x y => y.2 ≤ x.2) := by
  have hs := List.sorted_mergeSort scoreDescBool_trans scoreDescBool_total
    (qualifyingSrc active nodes mode)
  have ht := List.Pairwise.sublist
    (List.take_sublist (jsClampNat topN 1 40)
      ((qualifyingSrc active nodes mode).mergeSort scoreDescBool)) hs
  exact ht.imp (fun h => by simpa [scoreDescBool] using h)

theorem selectScoredSrc_pos (active : Entity) (nodes : List Entity)
    (mode : String) (topN : Nat) :
    ∀ p ∈ selectScoredSrc active nodes mode topN, 0 < p.2 := by
  intro p hp
  unfold selectScoredSrc at hp
  have hp2 := List.mem_mergeSort.mp (List.mem_of_mem_take hp)
  unfold qualifyingSrc at hp2
  have := (List.mem_filter.mp hp2).2
  simpa using this

theorem guitar_score (e : Entity) (hid : ¬ (cActive.id = e.id))
    (hins : e.instruments = ["guitar"]) :
    similarityScore (some cActive) (some e) kModeInstrument = 3 := by
  have hg : jsToLower "guitar" = "guitar" := by decide
  simp only [similarityScore, if_neg hid, if_pos rfl]
  simp [scoreInstrument, toSetL, overlapCount, hg, cActive, hins]

theorem mkCand_score (i : Nat) :
    similarityScore (some cActive) (some (mkCand i)) kModeInstrument = 3 :=
  guitar_score (mkCand i) (by simp [cActive, mkCand]) rfl

theorem cPool_filter_ne : cPool.filter (fun n => n.id != cActive.id) = cPool := by
  rw [List.filter_eq_self]
  intro n hn
  simp only [cPool, List.mem_map] at hn
  obtain ⟨i, _, rfl⟩ := hn
  simp [mkCand, cActive]

theorem qualifyingSrc_cPool_length :
    (qualifyingSrc cActive cPool kModeInstrument).length = 25 := by
  unfold qualifyingSrc
  rw [cPool_filter_ne]
  rw [List.filter_eq_self.mpr ?_]
  · simp [cPool]
  · intro p hp
    simp only [List.mem_map, cPool] at hp
    obtain ⟨n, ⟨i, _, rfl⟩, rfl⟩ := hp
    simp only [mkCand_score, decide_eq_true_eq]
    norm_num

/-! ### C3: Top-N clamping in the link selectors -/

/-- C3: each link selector slices the sorted qualifying candidates at its
clamped Top-N, so the number of returned links is exactly the minimum of
the clamped value and the number of qualifying candidates — never more
than the pool and never more than the variant's hard cap.  The clamp
ranges are `[1, 40]` in `src/src/App.js`, `[3, 12]` in
`src/unnamed/part_000`, and `[3, 8]`/`[3, 12]` in `src/unnamed/part_001`. -/
theorem spec_C3_topN_clamp (active : Entity) (nodes : List Entity)
    (mode : String) (topN linksCount linksN : Nat) (isMobile : Bool) :
    ((linksSrc active nodes mode topN).length
        = min (jsClampNat topN 1 40) (qualifyingSrc active nodes mode).length ∧
      (qualifyingSrc active nodes mode).length ≤ nodes.length) ∧
    (links000 active nodes mode linksCount).length
      = min (jsClampNat linksCount 3 12) (qualifying000 active nodes mode).length ∧
    (links001 active nodes mode linksN isMobile).length
      = min (jsClampNat linksN 3 (if isMobile then 8 else 12))
          (qualifying001 active nodes mode).length :=
  ⟨⟨linksSrc_length active nodes mode topN, qualifyingSrc_length_le active nodes mode⟩,
    links000_length active nodes mode linksCount,
    links001_length active nodes mode linksN isMobile⟩

/-- C3 counterexample: the single-select variant clamps `topN` into
`[1, 40]`, not into a range with minimum 3 and maximum between 8 and 16:
with 25 qualifying candidates, a raw `topN = 20` yields 20 links
(exceeding any cap of at most 16), and a raw `topN = 0` yields 1 link
(not the claimed minimum of 3). -/
theorem spec_C3_cex :
    (linksSrc cActive cPool kModeInstrument 20).length = 20 ∧
    (linksSrc cActive cPool kModeInstrument 0).length = 1 ∧
    ¬ ((20 : Nat) ≤ 16) := by
  refine ⟨?_, ?_, by norm_num⟩
  · rw [linksSrc_length, qualifyingSrc_cPool_length]
    decide
  · rw [linksSrc_length, qualifyingSrc_cPool_length]
    decide

/-! ### C4: sort order and tie-breaking in the link selector -/

theorem tCand1_score :
    similarityScore (some cActive) (some tCand1) kModeInstrument = 3 :=
  guitar_score tCand1 (by simp [cActive, tCand1, mkCand]) rfl

theorem tCand2_score :
    similarityScore (some cActive) (some tCand2) kModeInstrument = 3 :=
  guitar_score tCand2 (by simp [cActive, tCand2, mkCand]) rfl

theorem qualifyingSrc_tPool :
    qualifyingSrc cActive tPool kModeInstrument = [(tCand1, 3), (tCand2, 3)] := by
  have h1 : (tCand1.id != cActive.id) = true := by
    simp [tCand1, mkCand, cActive]
  have h2 : (tCand2.id != cActive.id) = true := by
    simp [tCand2, mkCand, cActive]
  unfold qualifyingSrc tPool
  simp only [List.filter_cons, List.filter_nil, h1, h2, if_true, List.map_cons,
    List.map_nil, tCand1_score, tCand2_score]
  norm_num

/-- C4 (amended): within one link-selection call of `src/src/App.js`, the
kept candidates are sorted by raw score descending, and candidates with
equal score keep their relative pool order (`Array.prototype.sort` is
stable and the comparator uses only the score) — so the output order is a
deterministic function of the inputs, but the secondary key is pool
position, not candidate name. -/
theorem spec_C4_sort_deterministic (active : Entity) (nodes : List Entity)
    (mode : String) (topN : Nat) :
    (selectScoredSrc active nodes mode topN).Pairwise (fun x y => y.2 ≤ x.2) ∧
    (∀ x y : Entity × ℚ, x.2 = y.2 →
      List.Sublist [x, y] (qualifyingSrc active nodes mode) →
      List.Sublist [x, y]
        ((qualifyingSrc active nodes mode).mergeSort scoreDescBool)) := by
  constructor
  · exact selectScoredSrc_pairwise active nodes mode topN
  · intro x y hxy hsub
    refine List.sublist_mergeSort scoreDescBool_trans scoreDescBool_total ?_ hsub
    refine List.pairwise_pair.mpr ?_
    simp [scoreDescBool, hxy]

/-- C4 witness: two equal-score candidates listed in pool order stay in
that order through the sort. -/
theorem spec_C4_sort_deterministic_witness :
    List.Sublist [((tCand1 : Entity), (3 : ℚ)), (tCand2, 3)]
      ((qualifyingSrc cActive tPool kModeInstrument).mergeSort scoreDescBool) :=
  (spec_C4_sort_deterministic cActive tPool kModeInstrument 10).2 (tCand1, 3) (tCand2, 3)
    rfl (by rw [qualifyingSrc_tPool])

/-- C4 counterexample: two candidates with equal score come back in pool
order (names `z` then `a`), not in ascending name order, refuting the
claimed name tie-break. -/
theorem spec_C4_cex :
    ((selectScoredSrc cActive tPool kModeInstrument 10).map
        (fun p => jvalToString p.1.name) = ["z", "a"]) ∧
    ((selectScoredSrc cActive tPool kModeInstrument 10).map Prod.snd
        = [(3 : ℚ), 3]) ∧
    ¬ (("z" : String) ≤ "a") := by
  have hsorted : (qualifyingSrc cActive tPool kModeInstrument).mergeSort scoreDescBool
      = [(tCand1, 3), (tCand2, 3)] := by
    rw [qualifyingSrc_tPool]
    apply List.mergeSort_of_sorted
    refine List.pairwise_pair.mpr ?_
    simp [scoreDescBool]
  have hsel : selectScoredSrc cActive tPool kModeInstrument 10
      = [(tCand1, 3), (tCand2, 3)] := by
    rw [selectScoredSrc, hsorted]
    rfl
  rw [hsel]
  refine ⟨?_, by simp, ?_⟩
  · simp [tCand1, tCand2, mkCand, jvalToString, jatomToString]
  · rw [String.le_iff_toList_le]
    decide

/-! ### C8: ratio normalization -/

theorem jsClamp_mono (a b x y : ℚ) (h : x ≤ y) : jsClamp x a b ≤ jsClamp y a b :=
  max_le_max le_rfl (min_le_min le_rfl h)

/-- C8: for the `links` useMemo of `src/src/App.js`, the divisor
`scored[0]?.s ?? 1` is always positive (falling back to `1` when nothing
qualifies, so `ratio` never divides by zero), and whenever the pool holds
a candidate with positive score: the link list is non-empty, the first
link's ratio is exactly `1`, ratios are non-increasing along the
sequence, and every ratio lies in `(0, 1]`. -/
theorem spec_C8_ratio_normalized (active : Entity) (nodes : List Entity)
    (mode : String) (topN : Nat) :
    0 < ((selectScoredSrc active nodes mode topN).head?.map Prod.snd).getD 1 ∧
    ((∃ n ∈ nodes, n.id ≠ active.id ∧
        0 < similarityScore (some active) (some n) mode) →
      linksSrc active nodes mode topN ≠ [] ∧
      (linksSrc active nodes mode topN).head?.map Link.ratio = some 1 ∧
      (linksSrc active nodes mode topN).Pairwise (fun x y => y.ratio ≤ x.ratio) ∧
      ∀ l ∈ linksSrc active nodes mode topN, 0 < l.ratio ∧ l.ratio ≤ 1) := by
  constructor
  · rcases hsc : selectScoredSrc active nodes mode topN with _ | ⟨p, rest⟩
    · simp
    · have hpos := selectScoredSrc_pos active nodes mode topN p (by rw [hsc]; simp)
      simp [hsc, hpos]
  · rintro ⟨n, hn, hne, hpos⟩
    have hmem : (n, similarityScore (some active) (some n) mode)
        ∈ qualifyingSrc active nodes mode := by
      unfold qualifyingSrc
      refine List.mem_filter.mpr ⟨?_, by simpa using hpos⟩
      exact List.mem_map_of_mem _
        (List.mem_filter.mpr ⟨hn, by simpa [bne_iff_ne] using hne⟩)
    have hql : qualifyingSrc active nodes mode ≠ [] := by
      intro he
      rw [he] at hmem
      exact absurd hmem (List.not_mem_nil _)
    have hlen : 0 < (selectScoredSrc active nodes mode topN).length := by
      rw [selectScoredSrc_length]
      have h1 : 0 < jsClampNat topN 1 40 := by
        simp only [jsClampNat]
        omega
      have h2 : 0 < (qualifyingSrc active nodes mode).length :=
        List.length_pos.mpr hql
      omega
    obtain ⟨p, rest, hsc⟩ :=
      List.exists_cons_of_ne_nil (List.ne_nil_of_length_pos hlen)
    have hp : 0 < p.2 := selectScoredSrc_pos active nodes mode topN p (by rw [hsc]; simp)
    have hpw : (p :: rest).Pairwise (fun x y : Entity × ℚ => y.2 ≤ x.2) := by
      rw [← hsc]; exact selectScoredSrc_pairwise active nodes mode topN
    have hall : ∀ q ∈ p :: rest, 0 < q.2 := by
      intro q hq
      exact selectScoredSrc_pos active nodes mode topN q (by rw [hsc]; exact hq)
    have hlk : linksSrc active nodes mode topN
        = (p :: rest).map (fun q =>
            let r := jsClamp (q.2 / p.2) 0 1
            { fromEnt := active, toEnt := q.1, ratio := r,
              width := 1 + r * (36 / 10) : Link }) := by
      unfold linksSrc
      rw [hsc]
      rfl
    have hr1 : jsClamp (p.2 / p.2) 0 1 = 1 := by
      rw [div_self (ne_of_gt hp)]
      simp [jsClamp]
    refine ⟨?_, ?_, ?_, ?_⟩
    · rw [hlk]; simp
    · rw [hlk]
      simp only [List.map_cons, List.head?_cons, Option.map_some]
      simp [hr1]
    · rw [hlk]
      refine List.pairwise_map.mpr (hpw.imp ?_)
      intro x y h
      exact jsClamp_mono 0 1 _ _ ((div_le_div_iff_of_pos_right hp).mpr h)
    · rw [hlk]
      intro l hl
      obtain ⟨q, hq, rfl⟩ := List.mem_map.mp hl
      have hq2 := hall q hq
      constructor
      · have hz : 0 < q.2 / p.2 := div_pos hq2 hp
        have : (0 : ℚ) < min 1 (q.2 / p.2) := lt_min one_pos hz
        exact lt_max_of_lt_right this
      · exact jsClamp_upper _ _ _ (by norm_num)

/-- C8 witness: with one qualifying candidate the link list is non-empty
and its first ratio is exactly `1`. -/
theorem spec_C8_ratio_normalized_witness :
    linksSrc cActive [mkCand 3] kModeInstrument 10 ≠ [] ∧
    (linksSrc cActive [mkCand 3] kModeInstrument 10).head?.map Link.ratio = some 1 :=
  ⟨((spec_C8_ratio_normalized cActive [mkCand 3] kModeInstrument 10).2
      ⟨mkCand 3, by simp, by simp [mkCand, cActive], by rw [mkCand_score]; norm_num⟩).1,
    ((spec_C8_ratio_normalized cActive [mkCand 3] kModeInstrument 10).2
      ⟨mkCand 3, by simp, by simp [mkCand, cActive], by rw [mkCand_score]; norm_num⟩).2.1⟩

/-! ### C5: grouping of absent-year entities -/

theorem sum_map_add_nat (f g : Nat → Nat) (ys : List Nat) :
    (ys.map (fun y => f y + g y)).sum = (ys.map f).sum + (ys.map g).sum := by
  induction ys with
  | nil => rfl
  | cons y ys ih =>
    simp only [List.map_cons, List.sum_cons, ih]
    omega

theorem sum_indicator_eq_count (k : Nat) (ys : List Nat) :
    (ys.map (fun y => if k == y then 1 else 0)).sum = ys.count k := by
  induction ys with
  | nil => rfl
  | cons y ys ih =>
    simp only [List.map_cons, List.sum_cons, ih, List.count_cons]
    by_cases h : k = y
    · simp [h, Nat.add_comm]
    · have h2 : ¬ (y = k) := fun he => h he.symm
      simp [h, h2]

theorem sum_filter_key_length (key : Entity → Nat) (l : List Entity) :
    ∀ ys : List Nat, ys.Nodup → (∀ x ∈ l, key x ∈ ys) →
      (ys.map (fun y => (l.filter (fun x => key x == y)).length)).sum = l.length := by
  induction l with
  | nil => intro ys _ _; simp
  | cons x l ih =>
    intro ys hnd hmem
    have hx : key x ∈ ys := hmem x (List.mem_cons_self _ _)
    have hrest : ∀ a ∈ l, key a ∈ ys := fun a ha => hmem a (List.mem_cons_of_mem _ ha)
    have hsplit : ∀ y ∈ ys, ((x :: l).filter (fun z => key z == y)).length
        = (fun y => (if key x == y then 1 else 0)
            + (l.filter (fun z => key z == y)).length) y := by
      intro y _
      by_cases h : key x = y
      · simp [List.filter_cons, h, Nat.add_comm]
      · simp [List.filter_cons, h]
    rw [List.map_congr_left hsplit, sum_map_add_nat, sum_indicator_eq_count,
      List.count_eq_one_of_mem hnd hx, ih ys hnd hrest]
    simp [Nat.add_comm]

theorem constellationGroup_ents (cosF sinF : ℚ → ℚ) (piQ : ℚ)
    (data : List Entity) (cx cy rx ry lr off : ℚ) (gc : Nat) (gi : Nat × Nat) :
    ((constellationGroup cosF sinF piQ data cx cy rx ry lr off gc gi).1).map
        CNode.ent
      = (data.filter (fun d => yearKey d == gi.2)).mergeSort nameLeBool := by
  simp only [constellationGroup, List.map_map]
  exact List.enum_map_snd _

/-- The entities carried by the constellation nodes, in output order: the
year buckets in ascending key order, each bucket name-sorted. -/
theorem constellation_nodes_ents (cosF sinF : ℚ → ℚ) (piQ : ℚ)
    (data : List Entity) (W H : ℚ) :
    ((computeConstellationPositions cosF sinF piQ data W H).1).map CNode.ent
      = ((((data.map yearKey).dedup).mergeSort (fun a b => a ≤ b)).map
          (fun y => (data.filter (fun d => yearKey d == y)).mergeSort
            nameLeBool)).flatten := by
  simp only [computeConstellationPositions]
  rw [List.map_flatten, List.map_map, List.map_map]
  congr 1
  have hpt : ∀ gi ∈ (((data.map yearKey).dedup).mergeSort
      (fun a b => a ≤ b)).enum,
      (List.map CNode.ent ∘ Prod.fst ∘ constellationGroup cosF sinF piQ data
        (W / 2) (H / 2) (max 0 (min W H / 2 - 28) * (66 / 100))
        (max 0 (min W H / 2 - 28) * (1 / 2))
        (jsClamp (max 0 (min W H / 2 - 28) * (18 / 100)) 22 110) (-(piQ / 2))
        (max 1 (((data.map yearKey).dedup).mergeSort
          (fun a b => a ≤ b)).length)) gi
      = ((fun y => (data.filter (fun d => yearKey d == y)).mergeSort
          nameLeBool) ∘ Prod.snd) gi := by
    intro gi _
    simp only [Function.comp_apply]
    exact constellationGroup_ents cosF sinF piQ data _ _ _ _ _ _ _ gi
  refine Eq.trans (List.map_congr_left hpt) ?_
  refine Eq.trans (List.map_map _ _ _).symm ?_
  rw [List.enum_map_snd]

/-- C5 (amended): in the single-select constellation layout every entity is
laid out — entities with absent year form their own bucket (key `99`), so
the node count always equals the entity count and in particular every
absent-year entity gets a position.  (The clustered layouts of
`src/unnamed/part_000` and `src/unnamed/part_001` instead drop
absent-year entities; see the counterexample.) -/
theorem spec_C5_null_year_bucket (cosF sinF : ℚ → ℚ) (piQ : ℚ)
    (data : List Entity) (W H : ℚ) :
    ((computeConstellationPositions cosF sinF piQ data W H).1).length
        = data.length ∧
    ∀ d ∈ data, d.year = none →
      ∃ p ∈ (computeConstellationPositions cosF sinF piQ data W H).1,
        p.ent = d := by
  have hents := constellation_nodes_ents cosF sinF piQ data W H
  have hnd : (((data.map yearKey).dedup).mergeSort (fun a b => a ≤ b)).Nodup :=
    ((List.mergeSort_perm _ _).nodup_iff).mpr (List.nodup_dedup _)
  have hcover : ∀ x ∈ data,
      yearKey x ∈ ((data.map yearKey).dedup).mergeSort (fun a b => a ≤ b) := by
    intro x hx
    rw [List.mem_mergeSort, List.mem_dedup]
    exact List.mem_map_of_mem _ hx
  constructor
  · have hlen : ((computeConstellationPositions cosF sinF piQ data W H).1).length
        = (((computeConstellationPositions cosF sinF piQ data W H).1).map
            CNode.ent).length := (List.length_map _ _).symm
    rw [hlen, hents, List.length_flatten, List.map_map]
    have hpt : ∀ y ∈ ((data.map yearKey).dedup).mergeSort (fun a b => a ≤ b),
        (List.length ∘ fun y =>
          (data.filter (fun d => yearKey d == y)).mergeSort nameLeBool) y
        = (fun y => (data.filter (fun d => yearKey d == y)).length) y := by
      intro y _
      simp
    rw [List.map_congr_left hpt]
    exact sum_filter_key_length yearKey data _ hnd hcover
  · intro d hd _
    have hmem : d ∈ ((computeConstellationPositions cosF sinF piQ data W H).1).map
        CNode.ent := by
      rw [hents]
      refine List.mem_flatten.mpr
        ⟨(data.filter (fun x => yearKey x == yearKey d)).mergeSort nameLeBool,
          ?_, ?_⟩
      · exact List.mem_map_of_mem _ (hcover d hd)
      · rw [List.mem_mergeSort]
        exact List.mem_filter.mpr ⟨hd, by simp⟩
    obtain ⟨p, hp, hpe⟩ := List.mem_map.mp hmem
    exact ⟨p, hp, hpe⟩

/-- C5 witness: a single absent-year entity is laid out by the
constellation layout. -/
theorem spec_C5_null_year_bucket_witness :
    ((computeConstellationPositions (fun _ => 0) (fun _ => 0) 0 [entNoYear]
        40 40).1).length = 1 ∧
    ∃ p ∈ (computeConstellationPositions (fun _ => 0) (fun _ => 0) 0 [entNoYear]
        40 40).1, p.ent = entNoYear :=
  ⟨(spec_C5_null_year_bucket (fun _ => 0) (fun _ => 0) 0 [entNoYear] 40 40).1,
    (spec_C5_null_year_bucket (fun _ => 0) (fun _ => 0) 0 [entNoYear] 40 40).2
      entNoYear (List.mem_singleton_self _) rfl⟩

/-- C5 counterexample: the clustered layout of `src/unnamed/part_000`
omits an absent-year entity entirely — the positioned output for a
one-entity dataset with `year = null` is empty, so absent-year entities do
not form their own bucket there. -/
theorem spec_C5_cex :
    (computeYearClusterPositions (fun _ => 0) (fun _ => 0) 0 [entNoYear]
        400 400 0 false none).1 = [] ∧
    entNoYear.year = none := by
  constructor
  · simp [computeYearClusterPositions, firstOccurrenceKeys, entNoYear]
  · rfl

/-! ### C1: layout bounds -/

/-- C1 (amended): the nodebox `computePositions` clamps every emitted
position into `[26, W − 26] × [26, H − 26]` (margin 26), for every
dataset, every pseudo-random/trigonometric parameter choice and every
viewport with `W, H ≥ 52`.  (`computeConstellationPositions` performs no
clamping at all; see the counterexample.) -/
theorem spec_C1_layout_bounds (rand : String → Nat → ℚ)
    (powF cosF sinF : ℚ → ℚ) (piQ : ℚ) (data : List NEntity) (W H : ℚ)
    (hW : 52 ≤ W) (hH : 52 ≤ H) :
    ∀ p ∈ computePositions rand powF cosF sinF piQ data W H,
      26 ≤ p.cx ∧ p.cx ≤ W - 26 ∧ 26 ≤ p.cy ∧ p.cy ≤ H - 26 := by
  intro p hp
  simp only [computePositions] at hp
  obtain ⟨d, _, rfl⟩ := List.mem_map.mp hp
  exact ⟨jsClamp_lower _ _ _, jsClamp_upper _ _ _ (by linarith),
    jsClamp_lower _ _ _, jsClamp_upper _ _ _ (by linarith)⟩

/-- C1 witness: the position of the single node of a concrete nodebox
layout run lies within the margins of its 400×400 viewport. -/
theorem spec_C1_layout_bounds_witness :
    26 ≤ c1demoNode.cx ∧ c1demoNode.cx ≤ 400 - 26 ∧
      26 ≤ c1demoNode.cy ∧ c1demoNode.cy ≤ 400 - 26 :=
  spec_C1_layout_bounds (fun _ _ => 0) (fun _ => 0) (fun _ => 0) (fun _ => 0) 0
    [wN] 400 400 (by norm_num) (by norm_num) c1demoNode
    (by rw [show computePositions (fun _ _ => 0) (fun _ => 0) (fun _ => 0)
          (fun _ => 0) 0 [wN] 400 400 = [c1demoNode] from rfl]
        exact List.mem_singleton_self _)

theorem constellation_no_clamp (cosF sinF : ℚ → ℚ) (piQ : ℚ) :
    ((computeConstellationPositions cosF sinF piQ [entNoYear] 40 40).1)
      = [CNode.mk entNoYear 20 20] := by
  have h1 : ([entNoYear].map yearKey).dedup = [99] := by decide
  have h3 : max (0 : ℚ) (min 40 40 / 2 - 28) = 0 := by norm_num
  simp only [computeConstellationPositions, h1, List.mergeSort_singleton]
  simp [constellationGroup, List.enum, List.enumFrom, yearKey, entNoYear, h3]
  norm_num

/-- C1 counterexample: the constellation layout of `src/src/App.js` does
not clamp: in a 40×40 viewport a single (absent-year) entity is placed at
exactly `(20, 20)`, violating `margin ≤ cx` for the implementation's fixed
margin `28`. -/
theorem spec_C1_cex :
    ((computeConstellationPositions (fun _ => 0) (fun _ => 0) 0 [entNoYear]
        40 40).1) = [CNode.mk entNoYear 20 20] ∧
    ¬ ((28 : ℚ) ≤ 20) :=
  ⟨constellation_no_clamp (fun _ => 0) (fun _ => 0) 0, by norm_num⟩

/-- C10 witness: a `"YES"`/`"maybe"` pair of concrete entities gets
exactly `+1` over the weighted-overlap base. -/
theorem spec_C10_collab_bonus_witness :
    similarityScoreN (some nYes) (some nMaybe) = nodeboxBase nYes nMaybe + 1 :=
  (spec_C10_collab_bonus nYes nMaybe (by decide)).2.1 (by decide)
